import Mathlib

/-!
Verification of the SmartRetire calculation engine, a shallow embedding of
src/utils/calculations.ts (with the data model of src/types.ts) over exact
rational arithmetic.

Modelling conventions:
* JavaScript numbers are modelled as rationals (ℚ); ages, calendar years and
  month counters as integers (ℤ).
* `Math.round x` is modelled as `⌊x + 1/2⌋` (JS rounds halves toward +∞).
* `parseFloat(x.toFixed(1))` is modelled as rounding half-up at one decimal.
* The source reads the wall clock once per call (`new Date().getFullYear()`);
  the embedding takes that year as an explicit `currentYear` argument, so all
  theorems compare runs evaluated at the same calendar date.
* The source mutates its input objects in place (the portfolio aggregator's
  allocation write-back).  The embedding passes state explicitly: each
  mutating entry point returns the post-call value of its input object
  alongside its result.
* `Math.random` inside the Monte Carlo engine is modelled by an injected
  stream of standard-normal draws (the outputs of `randn_bm`), indexed by
  draw count; trial `s` uses draws `s * years`, `s * years + 1`, ….
* JavaScript `x || d` on an optional numeric field maps both a missing value
  and 0 to the default `d`; on a plain number it is the identity except at 0.
-/

/-- Currency codes of src/types.ts. -/
inductive Currency
  | HKD | USD | CNY | JPY | GBP | EUR
  deriving DecidableEq

/-- Exchange-rate table `EXCHANGE_RATES` (base: HKD). -/
def EXCHANGE_RATES : Currency → ℚ
  | .HKD => 1
  | .USD => 7.80
  | .CNY => 1.08
  | .JPY => 0.052
  | .GBP => 9.85
  | .EUR => 8.45

/-- `convertToHKD`: multiply by the static rate.  (The source's `|| 1`
fallback for unknown currency codes cannot fire in the typed model.) -/
def convertToHKD (amount : ℚ) (c : Currency) : ℚ :=
  amount * EXCHANGE_RATES c

/-- JS `Math.round`: round half toward +∞. -/
def jsRound (x : ℚ) : ℤ := ⌊x + 1 / 2⌋

/-- `Math.round` as a ℚ → ℚ map (JS stores the result back in a number). -/
def jsRoundQ (x : ℚ) : ℚ := (jsRound x : ℚ)

/-- `parseFloat(x.toFixed(1))`: round half-up at one decimal place. -/
def round1 (x : ℚ) : ℚ := jsRoundQ (x * 10) / 10

/-- `calculatePMT`: fixed monthly loan payment. -/
def calculatePMT (rate : ℚ) (nper : ℤ) (pv : ℚ) : ℚ :=
  if rate = 0 then pv / (nper : ℚ)
  else
    let monthlyRate := rate / 100 / 12
    (pv * monthlyRate) / (1 - (1 + monthlyRate) ^ (-nper))

/-- Asset holding (src/types.ts `Asset`); the fields the engine never reads
(`symbol`, `type`, `region`) are omitted, `name` and `weeklyChange` are kept
as representatives of engine-untouched data. -/
structure Asset where
  id : String
  name : String
  currency : Currency
  allocation : ℚ
  quantity : ℚ
  expectedReturn : ℚ
  dividendYield : ℚ
  volatility : ℚ
  currentPrice : ℚ
  weeklyChange : ℚ
  deriving DecidableEq

/-- `MortgageParams` of src/types.ts. -/
structure MortgageParams where
  hasMortgage : Bool
  remainingPrincipal : ℚ
  annualRate : ℚ
  remainingYears : ℤ
  monthlyPayment : ℚ
  reinvestAfterPayoff : Bool
  deriving DecidableEq

/-- `CalculationParams` of src/types.ts. -/
structure CalculationParams where
  currentAge : ℤ
  retirementAge : ℤ
  monthlyIncome : ℚ
  targetMonthlyIncome : ℚ
  targetAnnualYield : ℚ
  initialPrincipal : ℚ
  monthlyContribution : ℚ
  annualExtraContribution : ℚ
  inflationRate : ℚ
  mortgage : MortgageParams
  useManualReturn : Bool
  manualReturnRate : ℚ
  manualDividendYield : ℚ
  assets : List Asset
  simulatedAssets : List Asset
  lastPortfolioUpdate : Option ℤ
  deriving DecidableEq

/-- `YearlyResult` of src/types.ts (the optional `simulated*` fields, never
set by the engine, are omitted). -/
structure YearlyResult where
  age : ℤ
  year : ℤ
  totalPrincipal : ℚ
  totalAppreciation : ℚ
  totalDividends : ℚ
  totalBalance : ℚ
  totalLiabilities : ℚ
  netWorth : ℚ
  yearlyPassiveIncome : ℚ
  totalPrincipalReal : ℚ
  totalAppreciationReal : ℚ
  totalDividendsReal : ℚ
  totalBalanceReal : ℚ
  totalLiabilitiesReal : ℚ
  netWorthReal : ℚ
  yearlyPassiveIncomeReal : ℚ
  deriving DecidableEq

/-- `SimulationResult` of src/types.ts. -/
structure SimulationResult where
  year : ℤ
  age : ℤ
  p10 : ℚ
  p50 : ℚ
  p90 : ℚ
  deriving DecidableEq

/-- `PortfolioStats` of src/types.ts. -/
structure PortfolioStats where
  weightedReturn : ℚ
  weightedYield : ℚ
  weightedVolatility : ℚ
  totalValue : ℚ
  deriving DecidableEq

/-- `SimulationEventType` of src/types.ts. -/
inductive SimulationEventType
  | CONTRIBUTION_STOP
  | ONE_TIME_EXPENSE
  | RECURRING_EXPENSE
  | MARKET_CRASH
  | RETURN_REDUCTION
  | RETIREMENT_EARLY
  deriving DecidableEq

/-- `LifecycleEvent` of src/types.ts (the display-only `name` is omitted). -/
structure LifecycleEvent where
  startAge : ℤ
  duration : Option ℤ
  type : SimulationEventType
  value : ℚ
  deriving DecidableEq

/-- `StressTestScenario` of src/types.ts. -/
structure StressTestScenario where
  id : String
  title : String
  description : String
  events : List LifecycleEvent
  customRetirementAge : Option ℤ
  customLifeExpectancy : Option ℤ
  deriving DecidableEq

/-- Stress-test status labels. -/
inductive StressStatus
  | SAFE | WARNING | DANGER
  deriving DecidableEq

/-- `StressTestResult` of src/types.ts. -/
structure StressTestResult where
  scenario : StressTestScenario
  finalBalance : ℚ
  baselineBalance : ℚ
  difference : ℚ
  isBankrupt : Bool
  bankruptAge : Option ℤ
  status : StressStatus
  deriving DecidableEq

/-- `GapAnalysisResult` of src/types.ts. -/
structure GapAnalysisResult where
  shortfall : ℚ
  suggestedConservativeAmount : ℚ
  conservativeYield : ℚ
  deriving DecidableEq

/-- One holding's HKD value: `currentPrice * quantity`, converted. -/
def assetHKD (a : Asset) : ℚ :=
  convertToHKD (a.currentPrice * a.quantity) a.currency

/-- First pass of `calculatePortfolioStats`: total HKD value. -/
def totalHKD (assets : List Asset) : ℚ :=
  (assets.map assetHKD).sum

/-- `calculatePortfolioStats`.  The source mutates each asset's `allocation`
field during the second pass; the embedding returns the post-call asset list
as the second component. -/
def calculatePortfolioStats (assets : List Asset) : PortfolioStats × List Asset :=
  let totalValueHKD := totalHKD assets
  if totalValueHKD = 0 then
    ({ weightedReturn := 0, weightedYield := 0, weightedVolatility := 0, totalValue := 0 },
     assets)
  else
    ({ weightedReturn := (assets.map fun a => a.expectedReturn * (assetHKD a / totalValueHKD)).sum,
       weightedYield := (assets.map fun a => a.dividendYield * (assetHKD a / totalValueHKD)).sum,
       weightedVolatility := (assets.map fun a => a.volatility * (assetHKD a / totalValueHKD)).sum,
       totalValue := totalValueHKD },
     assets.map fun a => { a with allocation := round1 (assetHKD a / totalValueHKD * 100) })

/-- `calculateRequiredCapital`. -/
def calculateRequiredCapital (targetMonthlyIncome annualYield : ℚ) : ℚ :=
  if annualYield ≤ 0 then 0
  else (targetMonthlyIncome * 12) / (annualYield / 100)

/-- JS `e.duration || 1`: a missing duration, and a duration of 0, default
to 1. -/
def jsDuration (d : Option ℤ) : ℤ :=
  match d with
  | none => 1
  | some v => if v = 0 then 1 else v

/-- Effective retirement age (source lines 83-87): `params.retirementAge`,
lowered by the value of the first `RETIREMENT_EARLY` event found anywhere in
the event list. -/
def effectiveRetirementAge (retirementAge : ℤ) (events : List LifecycleEvent) : ℚ :=
  match events.find? fun e => decide (e.type = SimulationEventType.RETIREMENT_EARLY) with
  | some e => (retirementAge : ℚ) - e.value
  | none => (retirementAge : ℚ)

/-- Events active in the year of age `age` (source line 156):
`startAge ≤ age < startAge + (duration || 1)`. -/
def yearEvents (events : List LifecycleEvent) (age : ℤ) : List LifecycleEvent :=
  events.filter fun e => decide (e.startAge ≤ age ∧ age < e.startAge + jsDuration e.duration)

/-- Running state of the yearly simulation (the unrounded accumulators of
`calculateCompoundInterest`). -/
structure SimState where
  currentBalance : ℚ
  totalContributed : ℚ
  totalAppreciation : ℚ
  totalDividends : ℚ
  mortgageBalance : ℚ
  monthsRemainingOnMortgage : ℤ
  deriving DecidableEq

/-- The per-call constants of `calculateCompoundInterest`, fixed before the
yearly loop. -/
structure SimCtx where
  currentAge : ℤ
  initialPrincipal : ℚ
  monthlyContribution : ℚ
  annualExtraContribution : ℚ
  mortgage : MortgageParams
  inflationRate : ℚ
  currentYear : ℤ
  events : List LifecycleEvent
  effectiveRetirementAge : ℚ
  annualPriceAppreciation : ℚ
  annualDividendYield : ℚ
  mortgageMonthlyPayment : ℚ
  deriving DecidableEq

/-- Initial mortgage monthly payment (source lines 121-126). -/
def initMortgagePayment (m : MortgageParams) : ℚ :=
  if m.hasMortgage ∧ 0 < m.remainingPrincipal ∧ 0 < m.remainingYears then
    if 0 < m.monthlyPayment then m.monthlyPayment
    else calculatePMT m.annualRate (m.remainingYears * 12) m.remainingPrincipal
  else 0

/-- Build the per-call constants from the parameter object, the aggregated
portfolio statistics and the event list. -/
def mkCtx (params : CalculationParams) (stats : PortfolioStats)
    (events : List LifecycleEvent) (currentYear : ℤ) : SimCtx :=
  { currentAge := params.currentAge
    initialPrincipal := params.initialPrincipal
    monthlyContribution := params.monthlyContribution
    annualExtraContribution := params.annualExtraContribution
    mortgage := params.mortgage
    inflationRate := params.inflationRate
    currentYear := currentYear
    events := events
    effectiveRetirementAge := effectiveRetirementAge params.retirementAge events
    annualPriceAppreciation :=
      if params.useManualReturn then params.manualReturnRate else stats.weightedReturn
    annualDividendYield :=
      if params.useManualReturn then params.manualDividendYield else stats.weightedYield
    mortgageMonthlyPayment := initMortgagePayment params.mortgage }

/-- State before the first simulated year (source lines 114-127). -/
def initState (ctx : SimCtx) : SimState :=
  { currentBalance := ctx.initialPrincipal
    totalContributed := ctx.initialPrincipal
    totalAppreciation := 0
    totalDividends := 0
    mortgageBalance := if ctx.mortgage.hasMortgage then ctx.mortgage.remainingPrincipal else 0
    monthsRemainingOnMortgage := if ctx.mortgage.hasMortgage then ctx.mortgage.remainingYears * 12 else 0 }

/-- Monthly contribution for the year of age `age` (source lines 181-185):
zero once retired, zero if a `CONTRIBUTION_STOP` event is active. -/
def effMonthlyContrib (ctx : SimCtx) (age : ℤ) : ℚ :=
  let isRetired := ctx.effectiveRetirementAge ≤ (age : ℚ)
  let c := if isRetired then 0 else ctx.monthlyContribution
  if 0 < ((yearEvents ctx.events age).filter fun e =>
      decide (e.type = SimulationEventType.CONTRIBUTION_STOP)).length then 0 else c

/-- Annual extra contribution for the year of age `age` (source lines
218-221). -/
def effAnnualContrib (ctx : SimCtx) (age : ℤ) : ℚ :=
  let isRetired := ctx.effectiveRetirementAge ≤ (age : ℚ)
  let c := if isRetired then 0 else ctx.annualExtraContribution
  if 0 < ((yearEvents ctx.events age).filter fun e =>
      decide (e.type = SimulationEventType.CONTRIBUTION_STOP)).length then 0 else c

/-- Balance entering the monthly loop (source lines 158-174): every active
`MARKET_CRASH` scales the balance, then every active expense event subtracts
its value. -/
def preMonthlyBalance (ctx : SimCtx) (age : ℤ) (b : ℚ) : ℚ :=
  let ev := yearEvents ctx.events age
  let afterCrash := (ev.filter fun e => decide (e.type = SimulationEventType.MARKET_CRASH)).foldl
    (fun x e => x * (1 - e.value / 100)) b
  (ev.filter fun e =>
      decide (e.type = SimulationEventType.ONE_TIME_EXPENSE ∨
        e.type = SimulationEventType.RECURRING_EXPENSE)).foldl
    (fun x e => x - e.value) afterCrash

/-- Effective (appreciation, yield) rates for the year of age `age` (source
lines 163-169): every active `RETURN_REDUCTION` scales both rates. -/
def effRates (ctx : SimCtx) (age : ℤ) : ℚ × ℚ :=
  ((yearEvents ctx.events age).filter fun e =>
      decide (e.type = SimulationEventType.RETURN_REDUCTION)).foldl
    (fun p e => (p.1 * (1 - e.value / 100), p.2 * (1 - e.value / 100)))
    (ctx.annualPriceAppreciation, ctx.annualDividendYield)

/-- One month of the inner loop (source lines 187-215): mortgage
amortization, contribution (plus redirected mortgage payment after payoff),
then appreciation and dividends. -/
def monthStep (mortgage : MortgageParams) (mortgageMonthlyPayment : ℚ)
    (monthlyAppreciationRate monthlyDividendRate effectiveMonthlyContrib : ℚ)
    (s : SimState) : SimState :=
  let monthlyMortgageRate := mortgage.annualRate / 100 / 12
  let amortized :=
    if 0 < s.monthsRemainingOnMortgage then
      let interestPayment := s.mortgageBalance * monthlyMortgageRate
      let principalPayment := mortgageMonthlyPayment - interestPayment
      ((if principalPayment < s.mortgageBalance then s.mortgageBalance - principalPayment else 0),
       s.monthsRemainingOnMortgage - 1, (0 : ℚ))
    else
      (s.mortgageBalance, s.monthsRemainingOnMortgage,
       if mortgage.hasMortgage && mortgage.reinvestAfterPayoff then mortgageMonthlyPayment else 0)
  let totalMonthlyInput := effectiveMonthlyContrib + amortized.2.2
  let balanceAfterInput := s.currentBalance + totalMonthlyInput
  let appreciationAmount := balanceAfterInput * monthlyAppreciationRate
  let dividendAmount := balanceAfterInput * monthlyDividendRate
  { currentBalance := balanceAfterInput + appreciationAmount + dividendAmount
    totalContributed := s.totalContributed + totalMonthlyInput
    totalAppreciation := s.totalAppreciation + appreciationAmount
    totalDividends := s.totalDividends + dividendAmount
    mortgageBalance := amortized.1
    monthsRemainingOnMortgage := amortized.2.1 }

/-- The yearly record pushed at year end (source lines 230-249): every field
rounded, real fields deflated before rounding. -/
def mkYearRecord (age yr : ℤ) (s : SimState) (effYield d : ℚ) : YearlyResult :=
  { age := age
    year := yr
    totalPrincipal := jsRoundQ s.totalContributed
    totalAppreciation := jsRoundQ s.totalAppreciation
    totalDividends := jsRoundQ s.totalDividends
    totalBalance := jsRoundQ s.currentBalance
    totalLiabilities := jsRoundQ s.mortgageBalance
    netWorth := jsRoundQ (s.currentBalance - s.mortgageBalance)
    yearlyPassiveIncome := jsRoundQ (s.currentBalance * (effYield / 100))
    totalPrincipalReal := jsRoundQ (s.totalContributed * d)
    totalAppreciationReal := jsRoundQ (s.totalAppreciation * d)
    totalDividendsReal := jsRoundQ (s.totalDividends * d)
    totalBalanceReal := jsRoundQ (s.currentBalance * d)
    totalLiabilitiesReal := jsRoundQ (s.mortgageBalance * d)
    netWorthReal := jsRoundQ ((s.currentBalance - s.mortgageBalance) * d)
    yearlyPassiveIncomeReal := jsRoundQ ((s.currentBalance * (effYield / 100)) * d) }

/-- The year-0 record (source lines 130-149): unrounded, no deflation. -/
def year0Record (ctx : SimCtx) : YearlyResult :=
  let s := initState ctx
  { age := ctx.currentAge
    year := ctx.currentYear
    totalPrincipal := s.totalContributed
    totalAppreciation := 0
    totalDividends := 0
    totalBalance := s.currentBalance
    totalLiabilities := s.mortgageBalance
    netWorth := s.currentBalance - s.mortgageBalance
    yearlyPassiveIncome := ctx.initialPrincipal * (ctx.annualDividendYield / 100)
    totalPrincipalReal := s.totalContributed
    totalAppreciationReal := 0
    totalDividendsReal := 0
    totalBalanceReal := s.currentBalance
    totalLiabilitiesReal := s.mortgageBalance
    netWorthReal := s.currentBalance - s.mortgageBalance
    yearlyPassiveIncomeReal := ctx.initialPrincipal * (ctx.annualDividendYield / 100) }

/-- One simulated year (source lines 151-250): apply the active events, run
12 monthly steps, add the annual contribution, emit the rounded record. -/
def simYear (ctx : SimCtx) (year : ℤ) (s : SimState) : SimState × YearlyResult :=
  let age := ctx.currentAge + year
  let rr := effRates ctx age
  let mc := effMonthlyContrib ctx age
  let ac := effAnnualContrib ctx age
  let s1 : SimState := { s with currentBalance := preMonthlyBalance ctx age s.currentBalance }
  let s2 := Nat.iterate
    (monthStep ctx.mortgage ctx.mortgageMonthlyPayment (rr.1 / 100 / 12) (rr.2 / 100 / 12) mc)
    12 s1
  let s3 : SimState := { s2 with
    currentBalance := s2.currentBalance + ac
    totalContributed := s2.totalContributed + ac }
  let d := (1 + ctx.inflationRate / 100) ^ (-year)
  (s3, mkYearRecord age (ctx.currentYear + year) s3 rr.2 d)

/-- The yearly loop: `n` further years starting at year index `year`. -/
def runYears (ctx : SimCtx) (s : SimState) (year : ℤ) : ℕ → List YearlyResult
  | 0 => []
  | n + 1 =>
    let step := simYear ctx year s
    step.2 :: runYears ctx step.1 (year + 1) n

/-- The full projection for fixed per-call constants (source lines 108-252):
empty when no year is to be simulated, otherwise the year-0 record followed
by one record per simulated year. -/
def simRun (ctx : SimCtx) (lifeExpectancy : ℤ) : List YearlyResult :=
  let yearsToSimulate := lifeExpectancy - ctx.currentAge
  if yearsToSimulate ≤ 0 then []
  else year0Record ctx :: runYears ctx (initState ctx) 1 yearsToSimulate.toNat

/-- `calculateCompoundInterest`.  Returns the yearly records and the
post-call parameter object (whose assets carry the aggregator's allocation
write-back). -/
def calculateCompoundInterest (params : CalculationParams) (events : List LifecycleEvent)
    (lifeExpectancy : ℤ) (currentYear : ℤ) : List YearlyResult × CalculationParams :=
  let sa := calculatePortfolioStats params.assets
  (simRun (mkCtx params sa.1 events currentYear) lifeExpectancy,
   { params with assets := sa.2 })

/-- The observable effect of a call on the caller's parameter object: the
aggregator's allocation write-back on `params.assets`. -/
def mutateParams (p : CalculationParams) : CalculationParams :=
  { p with assets := (calculatePortfolioStats p.assets).2 }

/-- One Monte Carlo trial (source lines 276-285): the list of balances at
year indices 0..years, drawing normal samples from the injected stream
starting at index `draw0`. -/
def mcPath (mean stddev annualContrib : ℚ) (randn : ℕ → ℚ) (draw0 : ℕ) (b : ℚ) :
    ℕ → List ℚ
  | 0 => [b]
  | n + 1 =>
    let randomReturn := mean + stddev * randn draw0
    let next := b * (1 + randomReturn) + annualContrib
    b :: mcPath mean stddev annualContrib randn (draw0 + 1) (if next < 0 then 0 else next) n

/-- JS `balances[Math.floor(simulations * q)]` on the ascending-sorted
year's balances. -/
def mcPercentile (sorted : List ℚ) (simulations : ℕ) (q : ℚ) : ℚ :=
  sorted.getD (Int.toNat ⌊(simulations : ℚ) * q⌋) 0

/-- `runMonteCarloSimulation`.  `randn` is the injected stream of
standard-normal draws (the source's `randn_bm()` outputs, in call order);
returns the percentile rows and the post-call parameter object. -/
def runMonteCarloSimulation (params : CalculationParams) (simulations : ℕ)
    (randn : ℕ → ℚ) (currentYear : ℤ) : List SimulationResult × CalculationParams :=
  let sa := calculatePortfolioStats params.assets
  let stats := sa.1
  let baseReturn := if params.useManualReturn then params.manualReturnRate else stats.weightedReturn
  let baseYield := if params.useManualReturn then params.manualDividendYield else stats.weightedYield
  let totalExpectedReturnMean := (baseReturn + baseYield) / 100
  let volatilityStdDev := stats.weightedVolatility / 100
  let years := (params.retirementAge - params.currentAge).toNat
  let annualContrib := params.monthlyContribution * 12 + params.annualExtraContribution
  let paths := (List.range simulations).map fun s =>
    mcPath totalExpectedReturnMean volatilityStdDev annualContrib randn (s * years)
      params.initialPrincipal years
  let finalResults := (List.range (years + 1)).map fun idx =>
    let balances := paths.map fun path => path.getD idx 0
    let sorted := balances.insertionSort (· ≤ ·)
    { year := currentYear + idx
      age := params.currentAge + idx
      p10 := jsRoundQ (mcPercentile sorted simulations (1 / 10))
      p50 := jsRoundQ (mcPercentile sorted simulations (1 / 2))
      p90 := jsRoundQ (mcPercentile sorted simulations (9 / 10)) }
  (finalResults, { params with assets := sa.2 })

/-- JS `scenario.customLifeExpectancy || 85`. -/
def jsLifeExpectancy (o : Option ℤ) : ℤ :=
  match o with
  | none => 85
  | some v => if v = 0 then 85 else v

/-- JS `results[results.length - 1]?.totalBalance || 0`. -/
def jsLastBalance (l : List YearlyResult) : ℚ :=
  match l.getLast? with
  | none => 0
  | some r => r.totalBalance

/-- The fixed scenario catalog of `runStressTests` (source lines 306-381). -/
def stressScenarios (params : CalculationParams) : List StressTestScenario :=
  [ { id := "unemployment"
      title := "中年失業危機"
      description := "40歲時失業 2 年，期間無法投入資金，且需消耗存款維持生活。"
      events := [⟨40, some 2, .CONTRIBUTION_STOP, 0⟩, ⟨40, some 2, .RECURRING_EXPENSE, 300000⟩]
      customRetirementAge := none
      customLifeExpectancy := none },
    { id := "illness"
      title := "突發重病"
      description := "50歲時遭遇重大傷病，一次性支出 150 萬醫療費。"
      events := [⟨50, some 1, .ONE_TIME_EXPENSE, 1500000⟩]
      customRetirementAge := none
      customLifeExpectancy := none },
    { id := "crash"
      title := "退休前夕崩盤"
      description := "退休該年遭遇金融海嘯，資產瞬間縮水 40%。"
      events := [⟨params.retirementAge, some 1, .MARKET_CRASH, 40⟩]
      customRetirementAge := none
      customLifeExpectancy := none },
    { id := "care"
      title := "長期照護需求"
      description := "75歲起需要長期照護，每年額外支出 48 萬，直到 85 歲。"
      events := [⟨75, some 10, .RECURRING_EXPENSE, 480000⟩]
      customRetirementAge := none
      customLifeExpectancy := none },
    { id := "early_retire"
      title := "被迫提早退休"
      description := "因公司裁員或家庭因素，提早 5 年退休，縮短了累積期。"
      events := [⟨params.retirementAge - 5, some 1, .RETIREMENT_EARLY, 5⟩]
      customRetirementAge := none
      customLifeExpectancy := none },
    { id := "low_return"
      title := "長期低回報"
      description := "全球進入經濟停滯期，年化報酬率長期減少 30%。"
      events := [⟨params.currentAge, some 50, .RETURN_REDUCTION, 30⟩]
      customRetirementAge := none
      customLifeExpectancy := none },
    { id := "inflation"
      title := "惡性通膨"
      description := "購買力下降，相當於每年生活成本大增 (模擬為資產縮水)。"
      events := [⟨params.currentAge, some 50, .RETURN_REDUCTION, 20⟩]
      customRetirementAge := none
      customLifeExpectancy := none },
    { id := "longevity"
      title := "長壽風險 (100歲)"
      description := "活到 100 歲，退休金是否足夠支撐多出來的 15 年？"
      events := []
      customRetirementAge := none
      customLifeExpectancy := some 100 },
    { id := "perfect_storm"
      title := "完美風暴 (最慘)"
      description := "提早退休 + 退休崩盤 + 重病。地獄級難度。"
      events := [⟨params.retirementAge - 5, some 1, .RETIREMENT_EARLY, 5⟩,
                 ⟨params.retirementAge - 5, some 1, .MARKET_CRASH, 30⟩,
                 ⟨60, some 1, .ONE_TIME_EXPENSE, 1000000⟩]
      customRetirementAge := none
      customLifeExpectancy := none } ]

/-- Outcome classification of one scenario (source lines 392-402): status
from bankruptcy, final balance and the ratio to the baseline, then the
longevity override. -/
def scenarioStatus (bankrupt : Bool) (finalBalance baselineBalance : ℚ)
    (isLongevity : Bool) : StressStatus :=
  let r : ℚ := if 0 < baselineBalance then finalBalance / baselineBalance else 0
  let st :=
    if bankrupt = true ∨ finalBalance ≤ 0 then StressStatus.DANGER
    else if r < 1 / 2 then StressStatus.DANGER
    else if r < 4 / 5 then StressStatus.WARNING
    else StressStatus.SAFE
  if isLongevity = true ∧ 0 < finalBalance then StressStatus.SAFE else st

/-- One scenario's outcome record (source lines 383-413), computed against
the parameter object `p` as it stands when the scenario runs. -/
def scenarioOutcome (p : CalculationParams) (baselineBalance : ℚ) (currentYear : ℤ)
    (sc : StressTestScenario) : StressTestResult :=
  let res := (calculateCompoundInterest p sc.events (jsLifeExpectancy sc.customLifeExpectancy) currentYear).1
  let finalBalance := jsLastBalance res
  let bankruptYear := res.find? fun r => decide (r.totalBalance < 0)
  { scenario := sc
    finalBalance := finalBalance
    baselineBalance := baselineBalance
    difference := finalBalance - baselineBalance
    isBankrupt := bankruptYear.isSome
    bankruptAge := bankruptYear.map fun r => r.age
    status := scenarioStatus bankruptYear.isSome finalBalance baselineBalance
      (decide (sc.id = "longevity")) }

/-- The scenario loop of `runStressTests`, threading the parameter object
(which each projection call mutates) left to right. -/
def stressLoop (currentYear : ℤ) (baselineBalance : ℚ) :
    List StressTestScenario → CalculationParams → List StressTestResult × CalculationParams
  | [], q => ([], q)
  | sc :: rest, q =>
    let q' := (calculateCompoundInterest q sc.events (jsLifeExpectancy sc.customLifeExpectancy) currentYear).2
    let t := stressLoop currentYear baselineBalance rest q'
    (scenarioOutcome q baselineBalance currentYear sc :: t.1, t.2)

/-- `runStressTests`: baseline projection (no events, life expectancy 85),
then every catalog scenario.  Returns the outcomes and the post-call
parameter object. -/
def runStressTests (params : CalculationParams) (currentYear : ℤ) :
    List StressTestResult × CalculationParams :=
  let base := calculateCompoundInterest params [] 85 currentYear
  let baselineBalance := jsLastBalance base.1
  stressLoop currentYear baselineBalance (stressScenarios base.2) base.2

/-- `calculateGapAnalysis`. -/
def calculateGapAnalysis (realStats simulatedStats : PortfolioStats)
    (yearsToRetirement : ℤ) : GapAnalysisResult :=
  let fvReal := realStats.totalValue *
    (1 + (realStats.weightedReturn + realStats.weightedYield) / 100) ^ yearsToRetirement
  let fvSimulated := simulatedStats.totalValue *
    (1 + (simulatedStats.weightedReturn + simulatedStats.weightedYield) / 100) ^ yearsToRetirement
  let shortfall := fvSimulated - fvReal
  let conservativeYield : ℚ := 0.045
  let suggested := if 0 < shortfall then shortfall / (1 + conservativeYield) ^ yearsToRetirement else 0
  { shortfall := shortfall
    suggestedConservativeAmount := suggested
    conservativeYield := conservativeYield * 100 }

/-- Pointwise allocation overwrite: the shape of every asset-list mutation
the engine performs. -/
def setAllocList (f : Asset → ℚ) (l : List Asset) : List Asset :=
  l.map fun a => { a with allocation := f a }

/-- Stress-test classification in the spec's words (claim C3): ratio =
finalBalance/baselineFinalBalance, taken as 0 when the baseline is ≤ 0;
Danger if the run is bankrupt or finalBalance ≤ 0 or ratio < 0.5; Warning if
ratio < 0.8; otherwise Safe; and the longevity scenario is Safe whenever its
finalBalance > 0, regardless of ratio. -/
def specStatus (bankrupt : Bool) (finalBalance baselineBalance : ℚ)
    (isLongevity : Bool) : StressStatus :=
  if isLongevity = true ∧ 0 < finalBalance then StressStatus.SAFE
  else
    let r : ℚ := if baselineBalance ≤ 0 then 0 else finalBalance / baselineBalance
    if bankrupt = true ∨ finalBalance ≤ 0 ∨ r < 1 / 2 then StressStatus.DANGER
    else if r < 4 / 5 then StressStatus.WARNING
    else StressStatus.SAFE

/-- A mortgage of 3 HKD, zero rate, two years to run: the scheduled payment
is 1/8 per month, so the liability stands at exactly 3/2 after one simulated
year. -/
def mortgageC1 : MortgageParams :=
  { hasMortgage := true, remainingPrincipal := 3, annualRate := 0, remainingYears := 2,
    monthlyPayment := 0, reinvestAfterPayoff := false }

/-- Concrete input refuting C1 as stated: zero balance, zero rates, the
mortgage above. -/
def paramsC1 : CalculationParams :=
  { currentAge := 30, retirementAge := 65, monthlyIncome := 0, targetMonthlyIncome := 0,
    targetAnnualYield := 0, initialPrincipal := 0, monthlyContribution := 0,
    annualExtraContribution := 0, inflationRate := 0, mortgage := mortgageC1,
    useManualReturn := true, manualReturnRate := 0, manualDividendYield := 0,
    assets := [], simulatedAssets := [], lastPortfolioUpdate := none }

/-- No mortgage. -/
def noMortgage : MortgageParams :=
  { hasMortgage := false, remainingPrincipal := 0, annualRate := 0, remainingYears := 0,
    monthlyPayment := 0, reinvestAfterPayoff := false }

/-- A 99-year-old saver with 100 HKD and zero manual rates: every
default-life-expectancy projection is empty, the longevity run lasts one
year. -/
def paramsElder : CalculationParams :=
  { currentAge := 99, retirementAge := 85, monthlyIncome := 0, targetMonthlyIncome := 0,
    targetAnnualYield := 0, initialPrincipal := 100, monthlyContribution := 0,
    annualExtraContribution := 0, inflationRate := 0, mortgage := noMortgage,
    useManualReturn := true, manualReturnRate := 0, manualDividendYield := 0,
    assets := [], simulatedAssets := [], lastPortfolioUpdate := none }

/-- paramsElder with nonzero contributions (for the contribution-zeroing
witnesses). -/
def paramsContrib : CalculationParams :=
  { paramsElder with monthlyContribution := 1000, annualExtraContribution := 500 }

/-- paramsElder with retirement age 65 (for the early-retirement witness). -/
def paramsRet65 : CalculationParams :=
  { paramsElder with retirementAge := 65 }

/-- A single holding worth 6 HKD (price 2, quantity 3), with a stale
allocation of 7. -/
def assetUnit : Asset :=
  { id := "A1", name := "UnitFund", currency := .HKD, allocation := 7, quantity := 3,
    expectedReturn := 0, dividendYield := 0, volatility := 0, currentPrice := 2,
    weeklyChange := 0 }

/-- paramsElder holding one asset of positive value. -/
def paramsAlloc : CalculationParams :=
  { paramsElder with assets := [assetUnit] }

/-- All-zero portfolio statistics. -/
def zeroStats : PortfolioStats :=
  { weightedReturn := 0, weightedYield := 0, weightedVolatility := 0, totalValue := 0 }

/-- An event list whose first EarlyRetirement event (value 5) is preceded by
a MarketCrash event and followed by a second EarlyRetirement event
(value 7). -/
def eventsEarly : List LifecycleEvent :=
  [⟨10, none, .MARKET_CRASH, 5⟩, ⟨0, some 3, .RETIREMENT_EARLY, 5⟩,
   ⟨0, none, .RETIREMENT_EARLY, 7⟩]

/-- A CONTRIBUTION_STOP event active at ages 40 and 41. -/
def eventsStop : List LifecycleEvent :=
  [⟨40, some 2, .CONTRIBUTION_STOP, 0⟩]

/-- Placeholder YearlyResult (default for list lookups in closed
statements). -/
def dummyResult : YearlyResult :=
  ⟨0, 0, 0, 0, 0, 0, 0, 0, 0, 0, 0, 0, 0, 0, 0, 0⟩

/-- Placeholder StressTestResult. -/
def dummyOutcome : StressTestResult :=
  ⟨⟨"", "", "", [], none, none⟩, 0, 0, 0, false, none, StressStatus.SAFE⟩

lemma iterate_twelve {α : Type} (f : α → α) (x : α) :
    Nat.iterate f 12 x = f (f (f (f (f (f (f (f (f (f (f (f x))))))))))) := rfl

lemma jsRound_sub_bound (a b : ℚ) : |jsRound (a - b) - (jsRound a - jsRound b)| ≤ 1 := by
  unfold jsRound
  have hA1 : ((⌊a + 1 / 2⌋ : ℤ) : ℚ) ≤ a + 1 / 2 := Int.floor_le _
  have hA2 : a + 1 / 2 < (⌊a + 1 / 2⌋ : ℚ) + 1 := Int.lt_floor_add_one _
  have hB1 : ((⌊b + 1 / 2⌋ : ℤ) : ℚ) ≤ b + 1 / 2 := Int.floor_le _
  have hB2 : b + 1 / 2 < (⌊b + 1 / 2⌋ : ℚ) + 1 := Int.lt_floor_add_one _
  have h1 : ⌊a + 1 / 2⌋ - ⌊b + 1 / 2⌋ - 1 ≤ ⌊a - b + 1 / 2⌋ := by
    rw [Int.le_floor]
    push_cast
    linarith
  have h2 : ⌊a - b + 1 / 2⌋ < ⌊a + 1 / 2⌋ - ⌊b + 1 / 2⌋ + 2 := by
    rw [Int.floor_lt]
    push_cast
    linarith
  rw [abs_le]
  omega

lemma jsRoundQ_sub_bound (a b : ℚ) :
    |jsRoundQ (a - b) - (jsRoundQ a - jsRoundQ b)| ≤ 1 := by
  have h := jsRound_sub_bound a b
  unfold jsRoundQ
  rw [show ((jsRound (a - b) : ℚ) - ((jsRound a : ℚ) - (jsRound b : ℚ)))
        = ((jsRound (a - b) - (jsRound a - jsRound b) : ℤ) : ℚ) by push_cast; ring]
  rw [← Int.cast_abs]
  exact_mod_cast h

lemma mkYearRecord_bounds (age yr : ℤ) (s : SimState) (effYield d : ℚ) :
    |(mkYearRecord age yr s effYield d).netWorth -
        ((mkYearRecord age yr s effYield d).totalBalance -
          (mkYearRecord age yr s effYield d).totalLiabilities)| ≤ 1
    ∧ |(mkYearRecord age yr s effYield d).netWorthReal -
        ((mkYearRecord age yr s effYield d).totalBalanceReal -
          (mkYearRecord age yr s effYield d).totalLiabilitiesReal)| ≤ 1 := by
  unfold mkYearRecord
  dsimp only
  refine ⟨jsRoundQ_sub_bound _ _, ?_⟩
  rw [sub_mul]
  exact jsRoundQ_sub_bound _ _

lemma simYear_snd_bounds (ctx : SimCtx) (year : ℤ) (s : SimState) :
    |(simYear ctx year s).2.netWorth -
        ((simYear ctx year s).2.totalBalance - (simYear ctx year s).2.totalLiabilities)| ≤ 1
    ∧ |(simYear ctx year s).2.netWorthReal -
        ((simYear ctx year s).2.totalBalanceReal - (simYear ctx year s).2.totalLiabilitiesReal)| ≤ 1 := by
  unfold simYear
  dsimp only
  exact mkYearRecord_bounds _ _ _ _ _

lemma runYears_mem {ctx : SimCtx} :
    ∀ {n : ℕ} {s : SimState} {y : ℤ} {r : YearlyResult}, r ∈ runYears ctx s y n →
      ∃ year s', r = (simYear ctx year s').2 := by
  intro n
  induction n with
  | zero => intro s y r h; simp [runYears] at h
  | succ n ih =>
    intro s y r h
    simp only [runYears, List.mem_cons] at h
    rcases h with h1 | h2
    · exact ⟨y, s, h1⟩
    · exact ih h2

lemma year0Record_exact (ctx : SimCtx) :
    (year0Record ctx).netWorth = (year0Record ctx).totalBalance - (year0Record ctx).totalLiabilities
    ∧ (year0Record ctx).netWorthReal
        = (year0Record ctx).totalBalanceReal - (year0Record ctx).totalLiabilitiesReal := by
  unfold year0Record
  exact ⟨rfl, rfl⟩

/-- C1 (corrected): in every record emitted by the Projection Simulator the
net-worth invariant holds up to the independent rounding of the three
fields: `netWorth` is the rounding of the unrounded balance minus the
unrounded liabilities, so it differs from `totalBalance − totalLiabilities`
(both themselves rounded) by at most 1, nominal and real alike.  The exact
equality claimed over the rounded fields is refuted by
`netWorth_rounded_counterexample`. -/
theorem netWorth_invariant_within_one (p : CalculationParams) (ev : List LifecycleEvent)
    (life cy : ℤ) (r : YearlyResult)
    (hr : r ∈ (calculateCompoundInterest p ev life cy).1) :
    |r.netWorth - (r.totalBalance - r.totalLiabilities)| ≤ 1
    ∧ |r.netWorthReal - (r.totalBalanceReal - r.totalLiabilitiesReal)| ≤ 1 := by
  have hmem : r ∈ simRun (mkCtx p (calculatePortfolioStats p.assets).1 ev cy) life := hr
  rw [simRun] at hmem
  split at hmem
  · exact absurd hmem (List.not_mem_nil r)
  · rcases List.mem_cons.mp hmem with h0 | hY
    · subst h0
      have hx := year0Record_exact (mkCtx p (calculatePortfolioStats p.assets).1 ev cy)
      rw [hx.1, hx.2]
      simp
    · obtain ⟨year, s', hr'⟩ := runYears_mem hY
      subst hr'
      exact simYear_snd_bounds _ _ _

/-- C1 counterexample: with a 3-HKD zero-rate two-year mortgage and an empty
portfolio, the year-1 record has totalBalance = round 0 = 0, totalLiabilities
= round (3/2) = 2, netWorth = round (−3/2) = −1, and −1 ≠ 0 − 2. -/
theorem netWorth_rounded_counterexample :
    ∃ r ∈ (calculateCompoundInterest paramsC1 [] 31 2025).1,
      r.netWorth ≠ r.totalBalance - r.totalLiabilities := by
  refine ⟨((calculateCompoundInterest paramsC1 [] 31 2025).1).getLast?.getD dummyResult, ?_, ?_⟩ <;>
    norm_num [calculateCompoundInterest, calculatePortfolioStats, totalHKD, assetHKD,
      convertToHKD, EXCHANGE_RATES, mkCtx, simRun, initState, year0Record, runYears, simYear,
      effRates, effMonthlyContrib, effAnnualContrib, preMonthlyBalance, yearEvents, jsDuration,
      effectiveRetirementAge, monthStep, iterate_twelve, mkYearRecord, jsRoundQ, jsRound,
      initMortgagePayment, calculatePMT, paramsC1, mortgageC1, dummyResult]

/-- C1 witness: the amended bound instantiated at the year-1 record of the
counterexample's run (where the discrepancy is exactly 1). -/
theorem netWorth_invariant_within_one_witness :
    |(((calculateCompoundInterest paramsC1 [] 31 2025).1).getLast?.getD dummyResult).netWorth -
        ((((calculateCompoundInterest paramsC1 [] 31 2025).1).getLast?.getD dummyResult).totalBalance -
          (((calculateCompoundInterest paramsC1 [] 31 2025).1).getLast?.getD dummyResult).totalLiabilities)| ≤ 1
    ∧ |(((calculateCompoundInterest paramsC1 [] 31 2025).1).getLast?.getD dummyResult).netWorthReal -
        ((((calculateCompoundInterest paramsC1 [] 31 2025).1).getLast?.getD dummyResult).totalBalanceReal -
          (((calculateCompoundInterest paramsC1 [] 31 2025).1).getLast?.getD dummyResult).totalLiabilitiesReal)| ≤ 1 := by
  apply netWorth_invariant_within_one paramsC1 [] 31 2025
  norm_num [calculateCompoundInterest, calculatePortfolioStats, totalHKD, assetHKD,
    convertToHKD, EXCHANGE_RATES, mkCtx, simRun, initState, year0Record, runYears, simYear,
    effRates, effMonthlyContrib, effAnnualContrib, preMonthlyBalance, yearEvents, jsDuration,
    effectiveRetirementAge, monthStep, iterate_twelve, mkYearRecord, jsRoundQ, jsRound,
    initMortgagePayment, calculatePMT, paramsC1, mortgageC1, dummyResult]

lemma foldl_mul_factor (f : LifecycleEvent → ℚ) :
    ∀ (l : List LifecycleEvent) (b : ℚ), l.foldl (fun x e => x * f e) b = b * (l.map f).prod := by
  intro l
  induction l with
  | nil => intro b; simp
  | cons e t ih => intro b; simp [List.foldl_cons, ih, mul_assoc]

lemma foldl_sub_value (f : LifecycleEvent → ℚ) :
    ∀ (l : List LifecycleEvent) (b : ℚ), l.foldl (fun x e => x - f e) b = b - (l.map f).sum := by
  intro l
  induction l with
  | nil => intro b; simp
  | cons e t ih => intro b; simp [List.foldl_cons, ih, sub_sub]

lemma foldl_pair_factor :
    ∀ (l : List LifecycleEvent) (a b : ℚ),
      l.foldl (fun p e => (p.1 * (1 - e.value / 100), p.2 * (1 - e.value / 100))) (a, b)
        = (a * (l.map fun e => 1 - e.value / 100).prod,
           b * (l.map fun e => 1 - e.value / 100).prod) := by
  intro l
  induction l with
  | nil => intro a b; simp
  | cons e t ih => intro a b; simp [List.foldl_cons, ih, mul_assoc]

/-- C2 (confirmed): per simulated year, with `ev` the events active that year
(startAge ≤ age < startAge + duration, duration defaulting to 1): the balance
entering the monthly loop is the previous balance times the product of all
active MarketCrash factors (1 − magnitude/100), minus the sum of all active
OneTimeExpense/RecurringExpense magnitudes (crashes before expenses, both
before the monthly loop); both rates used that year are the base rates times
the product of all active ReturnReduction factors (so next year, computed
again from the base rates, reverts); and any active StopContributions event
zeroes both the monthly and the annual contribution for the year. -/
theorem event_application_rules (ctx : SimCtx) (age : ℤ) (b : ℚ) :
    (preMonthlyBalance ctx age b =
      b * (((yearEvents ctx.events age).filter fun e =>
              decide (e.type = SimulationEventType.MARKET_CRASH)).map
            fun e => 1 - e.value / 100).prod
        - (((yearEvents ctx.events age).filter fun e =>
              decide (e.type = SimulationEventType.ONE_TIME_EXPENSE ∨
                e.type = SimulationEventType.RECURRING_EXPENSE)).map
            fun e => e.value).sum)
    ∧ (effRates ctx age =
        (ctx.annualPriceAppreciation * (((yearEvents ctx.events age).filter fun e =>
              decide (e.type = SimulationEventType.RETURN_REDUCTION)).map
            fun e => 1 - e.value / 100).prod,
         ctx.annualDividendYield * (((yearEvents ctx.events age).filter fun e =>
              decide (e.type = SimulationEventType.RETURN_REDUCTION)).map
            fun e => 1 - e.value / 100).prod))
    ∧ ((∃ e ∈ yearEvents ctx.events age, e.type = SimulationEventType.CONTRIBUTION_STOP) →
        effMonthlyContrib ctx age = 0 ∧ effAnnualContrib ctx age = 0)
    ∧ (∀ e : LifecycleEvent, e ∈ yearEvents ctx.events age ↔
        e ∈ ctx.events ∧ e.startAge ≤ age ∧ age < e.startAge + jsDuration e.duration) := by
  refine ⟨?_, ?_, ?_, ?_⟩
  · unfold preMonthlyBalance
    dsimp only
    rw [foldl_mul_factor, foldl_sub_value]
  · unfold effRates
    rw [foldl_pair_factor]
  · rintro ⟨e, he, ht⟩
    have hmem : e ∈ (yearEvents ctx.events age).filter fun e =>
        decide (e.type = SimulationEventType.CONTRIBUTION_STOP) :=
      List.mem_filter.mpr ⟨he, by simp [ht]⟩
    have hlen : 0 < ((yearEvents ctx.events age).filter fun e =>
        decide (e.type = SimulationEventType.CONTRIBUTION_STOP)).length :=
      List.length_pos.mpr (List.ne_nil_of_mem hmem)
    constructor
    · unfold effMonthlyContrib
      simp only [if_pos hlen]
    · unfold effAnnualContrib
      simp only [if_pos hlen]
  · intro e
    simp [yearEvents, List.mem_filter]

/-- C2 witness: with a StopContributions event active at age 40 and nonzero
configured contributions, both effective contributions for that year are 0. -/
theorem event_application_rules_witness :
    (∃ e ∈ yearEvents (mkCtx paramsContrib zeroStats eventsStop 2026).events 40,
      e.type = SimulationEventType.CONTRIBUTION_STOP)
    ∧ effMonthlyContrib (mkCtx paramsContrib zeroStats eventsStop 2026) 40 = 0
    ∧ effAnnualContrib (mkCtx paramsContrib zeroStats eventsStop 2026) 40 = 0 := by
  have hex : ∃ e ∈ yearEvents (mkCtx paramsContrib zeroStats eventsStop 2026).events 40,
      e.type = SimulationEventType.CONTRIBUTION_STOP := by
    refine ⟨⟨40, some 2, .CONTRIBUTION_STOP, 0⟩, ?_, rfl⟩
    norm_num [yearEvents, mkCtx, eventsStop, jsDuration, List.mem_filter]
  have h := (event_application_rules (mkCtx paramsContrib zeroStats eventsStop 2026) 40 0).2.2.1 hex
  exact ⟨hex, h.1, h.2⟩

lemma find?_append_first {α : Type} (p : α → Bool) (e : α) (l2 : List α) :
    ∀ l1 : List α, (∀ x ∈ l1, p x = false) → p e = true →
      (l1 ++ e :: l2).find? p = some e := by
  intro l1
  induction l1 with
  | nil => intro _ hp; simp [List.find?_cons_of_pos, hp]
  | cons a t ih =>
    intro hall hp
    have ha : p a = false := hall a (List.mem_cons_self a t)
    rw [List.cons_append, List.find?_cons_of_neg _ (by simp [ha])]
    exact ih (fun x hx => hall x (List.mem_cons_of_mem a hx)) hp

lemma find?_early_restamp (g : LifecycleEvent → ℤ) (h : LifecycleEvent → Option ℤ) :
    ∀ events : List LifecycleEvent,
      ((events.map fun e => { e with startAge := g e, duration := h e }).find? fun e =>
          decide (e.type = SimulationEventType.RETIREMENT_EARLY)).map (fun e => e.value)
        = (events.find? fun e =>
            decide (e.type = SimulationEventType.RETIREMENT_EARLY)).map (fun e => e.value) := by
  intro events
  induction events with
  | nil => rfl
  | cons e t ih =>
    by_cases hty : e.type = SimulationEventType.RETIREMENT_EARLY
    · rw [List.map_cons, List.find?_cons_of_pos _ (by simp [hty]),
        List.find?_cons_of_pos _ (by simp [hty])]
      rfl
    · rw [List.map_cons, List.find?_cons_of_neg _ (by simp [hty]),
        List.find?_cons_of_neg _ (by simp [hty])]
      exact ih

/-- C5 (confirmed): the effective retirement age is `retirementAge` when no
EarlyRetirement event is present; otherwise it is `retirementAge` minus the
magnitude of the first EarlyRetirement event in list order, independent of
that event's startAge and duration; and both the monthly and the annual
contribution of any simulated year whose age is at least the effective
retirement age are zero. -/
theorem effective_retirement_age_spec (retAge : ℤ) (events : List LifecycleEvent) :
    ((∀ e ∈ events, e.type ≠ SimulationEventType.RETIREMENT_EARLY) →
      effectiveRetirementAge retAge events = (retAge : ℚ))
    ∧ (∀ (l1 : List LifecycleEvent) (e : LifecycleEvent) (l2 : List LifecycleEvent),
        events = l1 ++ e :: l2 →
        e.type = SimulationEventType.RETIREMENT_EARLY →
        (∀ x ∈ l1, x.type ≠ SimulationEventType.RETIREMENT_EARLY) →
        effectiveRetirementAge retAge events = (retAge : ℚ) - e.value)
    ∧ (∀ (g : LifecycleEvent → ℤ) (h : LifecycleEvent → Option ℤ),
        effectiveRetirementAge retAge
            (events.map fun e => { e with startAge := g e, duration := h e })
          = effectiveRetirementAge retAge events)
    ∧ (∀ (params : CalculationParams) (stats : PortfolioStats) (cy age : ℤ),
        effectiveRetirementAge params.retirementAge events ≤ (age : ℚ) →
        effMonthlyContrib (mkCtx params stats events cy) age = 0
          ∧ effAnnualContrib (mkCtx params stats events cy) age = 0) := by
  refine ⟨?_, ?_, ?_, ?_⟩
  · intro hall
    unfold effectiveRetirementAge
    rw [List.find?_eq_none.mpr fun x hx => by simp [hall x hx]]
  · intro l1 e l2 hsplit hty hfirst
    subst hsplit
    unfold effectiveRetirementAge
    rw [find?_append_first _ e l2 l1 (fun x hx => by simp [hfirst x hx]) (by simp [hty])]
  · intro g h
    unfold effectiveRetirementAge
    have := find?_early_restamp g h events
    cases hfind : events.find? fun e => decide (e.type = SimulationEventType.RETIREMENT_EARLY) with
    | none =>
      rw [hfind] at this
      cases hfind2 : (events.map fun e => { e with startAge := g e, duration := h e }).find?
          fun e => decide (e.type = SimulationEventType.RETIREMENT_EARLY) with
      | none => rfl
      | some v => rw [hfind2] at this; simp at this
    | some v =>
      rw [hfind] at this
      cases hfind2 : (events.map fun e => { e with startAge := g e, duration := h e }).find?
          fun e => decide (e.type = SimulationEventType.RETIREMENT_EARLY) with
      | none => rw [hfind2] at this; simp at this
      | some w =>
        rw [hfind2] at this
        simp only [Option.map_some'] at this
        simp only [Option.some_inj.mp this]
  · intro params stats cy age hret
    constructor
    · simp [effMonthlyContrib, mkCtx, hret]
    · simp [effAnnualContrib, mkCtx, hret]

/-- C5 witness: with a MarketCrash first in the list and two EarlyRetirement
events (values 5 then 7), the effective retirement age from base 65 is 60,
and at age 61 ≥ 60 both contributions are zero despite nonzero configured
contributions. -/
theorem effective_retirement_age_spec_witness :
    effectiveRetirementAge 65 eventsEarly = 60
    ∧ effMonthlyContrib (mkCtx paramsRet65 zeroStats eventsEarly 2026) 61 = 0
    ∧ effAnnualContrib (mkCtx paramsRet65 zeroStats eventsEarly 2026) 61 = 0 := by
  have h1 := (effective_retirement_age_spec 65 eventsEarly).2.1
    [⟨10, none, .MARKET_CRASH, 5⟩] ⟨0, some 3, .RETIREMENT_EARLY, 5⟩
    [⟨0, none, .RETIREMENT_EARLY, 7⟩] rfl rfl (by intro x hx; simp [eventsEarly] at hx; simp [hx])
  have h2 := (effective_retirement_age_spec 65 eventsEarly).2.2.2 paramsRet65 zeroStats 2026 61
    (by rw [show paramsRet65.retirementAge = 65 from rfl, h1]; norm_num)
  refine ⟨by rw [h1]; norm_num, h2.1, h2.2⟩

/-- C7 (confirmed): when the total base-currency value is exactly zero
(including the empty list), the aggregator returns the all-zero statistics
and leaves the holdings list untouched (no allocation is written). -/
theorem portfolio_stats_zero_total (assets : List Asset) (h : totalHKD assets = 0) :
    calculatePortfolioStats assets =
      ({ weightedReturn := 0, weightedYield := 0, weightedVolatility := 0, totalValue := 0 },
       assets) := by
  unfold calculatePortfolioStats
  dsimp only
  rw [if_pos h]

/-- C7 witness: the empty holdings list. -/
theorem portfolio_stats_zero_total_witness :
    totalHKD [] = 0
    ∧ calculatePortfolioStats [] =
        ({ weightedReturn := 0, weightedYield := 0, weightedVolatility := 0, totalValue := 0 },
         ([] : List Asset)) :=
  ⟨rfl, portfolio_stats_zero_total [] rfl⟩

lemma round1_err (x : ℚ) : |round1 x - x| ≤ 1 / 20 := by
  unfold round1 jsRoundQ jsRound
  have h1 : ((⌊x * 10 + 1 / 2⌋ : ℤ) : ℚ) ≤ x * 10 + 1 / 2 := Int.floor_le _
  have h2 : x * 10 + 1 / 2 < (⌊x * 10 + 1 / 2⌋ : ℚ) + 1 := Int.lt_floor_add_one _
  rw [abs_le]
  constructor <;> linarith

lemma sum_round1_err : ∀ xs : List ℚ,
    |(xs.map round1).sum - xs.sum| ≤ (xs.length : ℚ) * (1 / 20) := by
  intro xs
  induction xs with
  | nil => simp
  | cons x t ih =>
    have hx := round1_err x
    have tri : |round1 x + (t.map round1).sum - (x + t.sum)|
        ≤ |round1 x - x| + |(t.map round1).sum - t.sum| := by
      have : round1 x + (t.map round1).sum - (x + t.sum)
          = (round1 x - x) + ((t.map round1).sum - t.sum) := by ring
      rw [this]
      exact abs_add _ _
    simp only [List.map_cons, List.sum_cons, List.length_cons]
    push_cast
    calc |round1 x + (t.map round1).sum - (x + t.sum)|
        ≤ |round1 x - x| + |(t.map round1).sum - t.sum| := tri
      _ ≤ 1 / 20 + (t.length : ℚ) * (1 / 20) := add_le_add hx ih
      _ = ((t.length : ℚ) + 1) * (1 / 20) := by ring

lemma sum_shares (V : ℚ) : ∀ l : List Asset,
    (l.map fun a => assetHKD a / V * 100).sum = (l.map assetHKD).sum / V * 100 := by
  intro l
  induction l with
  | nil => simp
  | cons a t ih =>
    simp only [List.map_cons, List.sum_cons, ih]
    ring

/-- C8 (confirmed): with positive total base-currency value V, the
aggregator writes into each holding's allocation its share of V in percent
rounded to one decimal, and the written allocations sum to 100 within 0.05
per holding. -/
theorem allocation_writeback_sums_to_100 (assets : List Asset)
    (hpos : 0 < totalHKD assets) :
    (calculatePortfolioStats assets).2 =
      (assets.map fun a => { a with allocation := round1 (assetHKD a / totalHKD assets * 100) })
    ∧ |((calculatePortfolioStats assets).2.map fun a => a.allocation).sum - 100|
        ≤ (assets.length : ℚ) * (1 / 20) := by
  have hne : totalHKD assets ≠ 0 := ne_of_gt hpos
  have h2 : (calculatePortfolioStats assets).2 =
      assets.map fun a => { a with allocation := round1 (assetHKD a / totalHKD assets * 100) } := by
    unfold calculatePortfolioStats
    dsimp only
    rw [if_neg hne]
  refine ⟨h2, ?_⟩
  rw [h2, List.map_map]
  have hcomp : ((fun a : Asset => a.allocation) ∘
        fun a => { a with allocation := round1 (assetHKD a / totalHKD assets * 100) })
      = fun a : Asset => round1 (assetHKD a / totalHKD assets * 100) := rfl
  rw [hcomp]
  have hmaps : assets.map (fun a => round1 (assetHKD a / totalHKD assets * 100))
      = (assets.map fun a => assetHKD a / totalHKD assets * 100).map round1 := by
    rw [List.map_map]
    rfl
  rw [hmaps]
  have herr := sum_round1_err (assets.map fun a => assetHKD a / totalHKD assets * 100)
  have hsum : (assets.map fun a => assetHKD a / totalHKD assets * 100).sum = 100 := by
    rw [sum_shares]
    rw [show (assets.map assetHKD).sum = totalHKD assets from rfl]
    rw [div_self hne]
    norm_num
  rw [hsum, List.length_map] at herr
  exact herr

/-- C8 witness: a single holding worth 6 HKD gets allocation 100, and the
sum is within one holding's rounding tolerance of 100. -/
theorem allocation_writeback_sums_to_100_witness :
    0 < totalHKD [assetUnit]
    ∧ (calculatePortfolioStats [assetUnit]).2 =
        ([assetUnit].map fun a => { a with allocation := round1 (assetHKD a / totalHKD [assetUnit] * 100) })
    ∧ |((calculatePortfolioStats [assetUnit]).2.map fun a => a.allocation).sum - 100|
        ≤ (([assetUnit] : List Asset).length : ℚ) * (1 / 20) := by
  have hpos : 0 < totalHKD [assetUnit] := by
    norm_num [totalHKD, assetHKD, convertToHKD, EXCHANGE_RATES, assetUnit]
  have h := allocation_writeback_sums_to_100 [assetUnit] hpos
  exact ⟨hpos, h.1, h.2⟩

lemma runYears_length (ctx : SimCtx) :
    ∀ (n : ℕ) (s : SimState) (y : ℤ), (runYears ctx s y n).length = n := by
  intro n
  induction n with
  | zero => intro s y; rfl
  | succ n ih => intro s y; simp [runYears, ih]

lemma simYear_snd_age (ctx : SimCtx) (year : ℤ) (s : SimState) :
    (simYear ctx year s).2.age = ctx.currentAge + year := rfl

lemma runYears_get?_age (ctx : SimCtx) :
    ∀ (n : ℕ) (s : SimState) (y : ℤ) (i : ℕ) (r : YearlyResult),
      (runYears ctx s y n).get? i = some r → r.age = ctx.currentAge + y + i := by
  intro n
  induction n with
  | zero => intro s y i r h; simp [runYears] at h
  | succ n ih =>
    intro s y i r h
    cases i with
    | zero =>
      simp only [runYears, List.get?_cons_zero, Option.some_inj] at h
      rw [← h, simYear_snd_age]
      simp
    | succ i =>
      simp only [runYears, List.get?_cons_succ] at h
      rw [ih _ _ _ _ h]
      push_cast
      ring

lemma simRun_length_pos (ctx : SimCtx) (life : ℤ) (hpos : 0 < life - ctx.currentAge) :
    (simRun ctx life).length = (life - ctx.currentAge).toNat + 1 := by
  unfold simRun
  dsimp only
  rw [if_neg (by omega)]
  simp [runYears_length]

lemma simRun_get?_age (ctx : SimCtx) (life : ℤ) (hpos : 0 < life - ctx.currentAge) :
    ∀ (i : ℕ) (r : YearlyResult),
      (simRun ctx life).get? i = some r → r.age = ctx.currentAge + i := by
  unfold simRun
  dsimp only
  rw [if_neg (by omega)]
  intro i r h
  cases i with
  | zero =>
    simp only [List.get?_cons_zero, Option.some_inj] at h
    rw [← h]
    norm_num [year0Record]
  | succ i =>
    simp only [List.get?_cons_succ] at h
    rw [runYears_get?_age ctx _ _ _ _ _ h]
    push_cast
    ring

/-- C9 (confirmed): when lifeExpectancy − currentAge ≤ 0 the Projection
Simulator returns the empty sequence; otherwise it returns exactly
lifeExpectancy − currentAge + 1 records, the record at position i carrying
age currentAge + i, i.e. one record per integer age from currentAge to
lifeExpectancy inclusive in increasing order. -/
theorem projection_length_and_ages (p : CalculationParams) (ev : List LifecycleEvent)
    (life cy : ℤ) :
    (life - p.currentAge ≤ 0 → (calculateCompoundInterest p ev life cy).1 = [])
    ∧ (0 < life - p.currentAge →
        (calculateCompoundInterest p ev life cy).1.length = (life - p.currentAge).toNat + 1
        ∧ ∀ (i : ℕ) (r : YearlyResult),
            (calculateCompoundInterest p ev life cy).1.get? i = some r →
            r.age = p.currentAge + i) := by
  have hrun : (calculateCompoundInterest p ev life cy).1
      = simRun (mkCtx p (calculatePortfolioStats p.assets).1 ev cy) life := rfl
  have hage : (mkCtx p (calculatePortfolioStats p.assets).1 ev cy).currentAge = p.currentAge := rfl
  constructor
  · intro hle
    rw [hrun]
    unfold simRun
    dsimp only
    rw [if_pos (by rw [hage]; exact hle)]
  · intro hpos
    refine ⟨?_, ?_⟩
    · rw [hrun, simRun_length_pos _ _ (by rw [hage]; exact hpos), hage]
    · intro i r h
      rw [hrun] at h
      have := simRun_get?_age _ _ (by rw [hage]; exact hpos) i r h
      rw [this, hage]

/-- C9 witness: for the 99-year-old, a life expectancy of 80 yields the
empty sequence and a life expectancy of 101 yields exactly 3 records
(ages 99, 100, 101). -/
theorem projection_length_and_ages_witness :
    (calculateCompoundInterest paramsElder [] 80 2026).1 = []
    ∧ (calculateCompoundInterest paramsElder [] 101 2026).1.length = 3 := by
  refine ⟨(projection_length_and_ages paramsElder [] 80 2026).1 (by norm_num [paramsElder]), ?_⟩
  have := ((projection_length_and_ages paramsElder [] 101 2026).2 (by norm_num [paramsElder])).1
  rw [this]
  decide

lemma map_assetHKD_setAlloc (f : Asset → ℚ) (l : List Asset) :
    (setAllocList f l).map assetHKD = l.map assetHKD := by
  unfold setAllocList
  rw [List.map_map]
  rfl

lemma totalHKD_setAlloc (f : Asset → ℚ) (l : List Asset) :
    totalHKD (setAllocList f l) = totalHKD l := by
  unfold totalHKD
  rw [map_assetHKD_setAlloc]

lemma stats_fst_setAlloc (f : Asset → ℚ) (l : List Asset) :
    (calculatePortfolioStats (setAllocList f l)).1 = (calculatePortfolioStats l).1 := by
  unfold calculatePortfolioStats
  dsimp only
  rw [totalHKD_setAlloc]
  by_cases h : totalHKD l = 0
  · rw [if_pos h, if_pos h]
  · rw [if_neg h, if_neg h]
    dsimp only
    have h1 : (setAllocList f l).map (fun a => a.expectedReturn * (assetHKD a / totalHKD l))
        = l.map fun a => a.expectedReturn * (assetHKD a / totalHKD l) := by
      unfold setAllocList; rw [List.map_map]; rfl
    have h2 : (setAllocList f l).map (fun a => a.dividendYield * (assetHKD a / totalHKD l))
        = l.map fun a => a.dividendYield * (assetHKD a / totalHKD l) := by
      unfold setAllocList; rw [List.map_map]; rfl
    have h3 : (setAllocList f l).map (fun a => a.volatility * (assetHKD a / totalHKD l))
        = l.map fun a => a.volatility * (assetHKD a / totalHKD l) := by
      unfold setAllocList; rw [List.map_map]; rfl
    rw [h1, h2, h3]

lemma stats_snd_zero (l : List Asset) (h : totalHKD l = 0) :
    (calculatePortfolioStats l).2 = l := by
  unfold calculatePortfolioStats
  dsimp only
  rw [if_pos h]

lemma stats_snd_pos (l : List Asset) (h : ¬ totalHKD l = 0) :
    (calculatePortfolioStats l).2
      = setAllocList (fun a => round1 (assetHKD a / totalHKD l * 100)) l := by
  unfold calculatePortfolioStats
  dsimp only
  rw [if_neg h]
  rfl

lemma writeback_idem (l : List Asset) :
    (calculatePortfolioStats ((calculatePortfolioStats l).2)).2 = (calculatePortfolioStats l).2 := by
  by_cases h : totalHKD l = 0
  · rw [stats_snd_zero l h, stats_snd_zero l h]
  · rw [stats_snd_pos l h]
    have htot : ¬ totalHKD (setAllocList (fun a => round1 (assetHKD a / totalHKD l * 100)) l) = 0 := by
      rw [totalHKD_setAlloc]; exact h
    rw [stats_snd_pos _ htot, totalHKD_setAlloc]
    unfold setAllocList
    rw [List.map_map]
    rfl

lemma stats_fst_idem (l : List Asset) :
    (calculatePortfolioStats ((calculatePortfolioStats l).2)).1 = (calculatePortfolioStats l).1 := by
  by_cases h : totalHKD l = 0
  · rw [stats_snd_zero l h]
  · rw [stats_snd_pos l h, stats_fst_setAlloc]

lemma stats_idem (l : List Asset) :
    calculatePortfolioStats ((calculatePortfolioStats l).2)
      = ((calculatePortfolioStats l).1, (calculatePortfolioStats l).2) := by
  calc calculatePortfolioStats ((calculatePortfolioStats l).2)
      = ((calculatePortfolioStats ((calculatePortfolioStats l).2)).1,
         (calculatePortfolioStats ((calculatePortfolioStats l).2)).2) := rfl
    _ = ((calculatePortfolioStats l).1, (calculatePortfolioStats l).2) := by
        rw [stats_fst_idem, writeback_idem]

lemma calcCI_snd (p : CalculationParams) (ev : List LifecycleEvent) (life cy : ℤ) :
    (calculateCompoundInterest p ev life cy).2 = mutateParams p := rfl

lemma mutate_idem (p : CalculationParams) : mutateParams (mutateParams p) = mutateParams p :=
  congrArg (fun A => { p with assets := A }) (writeback_idem p.assets)

lemma calcCI_fst_mutate (p : CalculationParams) (ev : List LifecycleEvent) (life cy : ℤ) :
    (calculateCompoundInterest (mutateParams p) ev life cy).1
      = (calculateCompoundInterest p ev life cy).1 := by
  show simRun (mkCtx (mutateParams p) (calculatePortfolioStats (mutateParams p).assets).1 ev cy) life
      = simRun (mkCtx p (calculatePortfolioStats p.assets).1 ev cy) life
  have hstats : (calculatePortfolioStats (mutateParams p).assets).1
      = (calculatePortfolioStats p.assets).1 := stats_fst_idem p.assets
  rw [hstats]
  rfl

lemma scenarioOutcome_mutate (p : CalculationParams) (bb : ℚ) (cy : ℤ)
    (sc : StressTestScenario) :
    scenarioOutcome (mutateParams p) bb cy sc = scenarioOutcome p bb cy sc := by
  unfold scenarioOutcome
  rw [calcCI_fst_mutate]

lemma stressLoop_fixed (cy : ℤ) (bb : ℚ) :
    ∀ (scs : List StressTestScenario) (q : CalculationParams), mutateParams q = q →
      stressLoop cy bb scs q = (scs.map (scenarioOutcome q bb cy), q) := by
  intro scs
  induction scs with
  | nil => intro q h; rfl
  | cons sc t ih =>
    intro q h
    have hq' : (calculateCompoundInterest q sc.events
        (jsLifeExpectancy sc.customLifeExpectancy) cy).2 = q := by
      rw [calcCI_snd, h]
    simp only [stressLoop]
    rw [hq', ih q h]
    rfl

lemma runStressTests_eq (p : CalculationParams) (cy : ℤ) :
    runStressTests p cy
      = ((stressScenarios p).map
          (scenarioOutcome (mutateParams p)
            (jsLastBalance (calculateCompoundInterest p [] 85 cy).1) cy),
         mutateParams p) := by
  unfold runStressTests
  dsimp only
  rw [show (calculateCompoundInterest p [] 85 cy).2 = mutateParams p from rfl]
  rw [stressLoop_fixed cy _ (stressScenarios (mutateParams p)) (mutateParams p) (mutate_idem p)]
  rfl

lemma scenarioStatus_eq_spec (bk : Bool) (fb bb : ℚ) (lg : Bool) :
    scenarioStatus bk fb bb lg = specStatus bk fb bb lg := by
  unfold scenarioStatus specStatus
  dsimp only
  have hr : (if 0 < bb then fb / bb else 0) = (if bb ≤ 0 then 0 else fb / bb) := by
    by_cases h : 0 < bb
    · rw [if_pos h, if_neg (not_le.mpr h)]
    · rw [if_neg h, if_pos (not_lt.mp h)]
  rw [hr]
  split_ifs <;> first | rfl | tauto

/-- C3 (confirmed): every outcome produced by the Stress Test Runner carries
the status dictated by the spec classification of its own fields: ratio =
finalBalance/baselineFinalBalance (0 when the baseline is ≤ 0); Danger if
bankrupt or finalBalance ≤ 0 or ratio < 0.5; Warning if ratio < 0.8;
otherwise Safe; with the longevity scenario Safe whenever finalBalance > 0. -/
theorem stress_status_spec (p : CalculationParams) (cy : ℤ) (out : StressTestResult)
    (hmem : out ∈ (runStressTests p cy).1) :
    out.status = specStatus out.isBankrupt out.finalBalance out.baselineBalance
      (decide (out.scenario.id = "longevity")) := by
  rw [runStressTests_eq] at hmem
  dsimp only at hmem
  rw [List.mem_map] at hmem
  obtain ⟨sc, hsc, rfl⟩ := hmem
  exact scenarioStatus_eq_spec _ _ _ _

/-- C3 witness: for the 99-year-old, the longevity outcome (catalog position
7) has finalBalance 100 > 0 while the baseline (an empty projection) is 0,
so the spec classification forces Safe via the longevity override. -/
theorem stress_status_spec_witness :
    (scenarioOutcome (mutateParams paramsElder)
        (jsLastBalance (calculateCompoundInterest paramsElder [] 85 2026).1) 2026
        ((stressScenarios paramsElder).getD 7 ⟨"", "", "", [], none, none⟩)).status
      = StressStatus.SAFE := by
  have hget : (stressScenarios paramsElder).get? 7
      = some ((stressScenarios paramsElder).getD 7 ⟨"", "", "", [], none, none⟩) := rfl
  have hmem : scenarioOutcome (mutateParams paramsElder)
      (jsLastBalance (calculateCompoundInterest paramsElder [] 85 2026).1) 2026
      ((stressScenarios paramsElder).getD 7 ⟨"", "", "", [], none, none⟩)
      ∈ (runStressTests paramsElder 2026).1 := by
    rw [runStressTests_eq]
    exact List.mem_map_of_mem _ (List.get?_mem hget)
  rw [stress_status_spec paramsElder 2026 _ hmem]
  norm_num [scenarioOutcome, specStatus, calculateCompoundInterest, calculatePortfolioStats,
    totalHKD, assetHKD, convertToHKD, EXCHANGE_RATES, mkCtx, simRun, initState, year0Record,
    runYears, simYear, effRates, effMonthlyContrib, effAnnualContrib, preMonthlyBalance,
    yearEvents, jsDuration, effectiveRetirementAge, monthStep, iterate_twelve, mkYearRecord,
    jsRoundQ, jsRound, initMortgagePayment, calculatePMT, jsLastBalance, jsLifeExpectancy,
    stressScenarios, mutateParams, paramsElder, noMortgage]

lemma find?_some_of_first {α : Type} (p : α → Bool) :
    ∀ (l : List α) (i : ℕ) (r : α), l.get? i = some r → p r = true →
      (∀ (j : ℕ) (rj : α), j < i → l.get? j = some rj → p rj = false) →
      l.find? p = some r := by
  intro l
  induction l with
  | nil => intro i r h; simp at h
  | cons a t ih =>
    intro i r hget hp hmin
    cases i with
    | zero =>
      simp only [List.get?_cons_zero, Option.some_inj] at hget
      subst hget
      rw [List.find?_cons_of_pos _ hp]
    | succ i =>
      have ha : p a = false := hmin 0 a (Nat.succ_pos i) rfl
      rw [List.find?_cons_of_neg _ (by simp [ha])]
      exact ih i r (by simpa using hget) hp
        fun j rj hj hg => hmin (j + 1) rj (by omega) (by simpa using hg)

/-- C4 (confirmed): for every outcome of the Stress Test Runner, the
bankrupt flag is set iff some record of that scenario's projected sequence
has totalBalance < 0 (anywhere, not only the final year), and when the
record at position i is the first such record, bankruptAge is its age. -/
theorem stress_bankrupt_iff (p : CalculationParams) (cy : ℤ) (out : StressTestResult)
    (hmem : out ∈ (runStressTests p cy).1) :
    (out.isBankrupt = true ↔
      ∃ r ∈ (calculateCompoundInterest p out.scenario.events
              (jsLifeExpectancy out.scenario.customLifeExpectancy) cy).1, r.totalBalance < 0)
    ∧ (∀ (i : ℕ) (r : YearlyResult),
        (calculateCompoundInterest p out.scenario.events
            (jsLifeExpectancy out.scenario.customLifeExpectancy) cy).1.get? i = some r →
        r.totalBalance < 0 →
        (∀ (j : ℕ) (rj : YearlyResult), j < i →
          (calculateCompoundInterest p out.scenario.events
              (jsLifeExpectancy out.scenario.customLifeExpectancy) cy).1.get? j = some rj →
          ¬ rj.totalBalance < 0) →
        out.bankruptAge = some r.age) := by
  rw [runStressTests_eq] at hmem
  dsimp only at hmem
  rw [List.mem_map] at hmem
  obtain ⟨sc, hsc, rfl⟩ := hmem
  have hres : (calculateCompoundInterest (mutateParams p) sc.events
      (jsLifeExpectancy sc.customLifeExpectancy) cy).1
      = (calculateCompoundInterest p sc.events (jsLifeExpectancy sc.customLifeExpectancy) cy).1 :=
    calcCI_fst_mutate p sc.events (jsLifeExpectancy sc.customLifeExpectancy) cy
  have hbk : (scenarioOutcome (mutateParams p)
      (jsLastBalance (calculateCompoundInterest p [] 85 cy).1) cy sc).isBankrupt
      = ((calculateCompoundInterest (mutateParams p) sc.events
          (jsLifeExpectancy sc.customLifeExpectancy) cy).1.find?
            fun r => decide (r.totalBalance < 0)).isSome := rfl
  have hba : (scenarioOutcome (mutateParams p)
      (jsLastBalance (calculateCompoundInterest p [] 85 cy).1) cy sc).bankruptAge
      = ((calculateCompoundInterest (mutateParams p) sc.events
          (jsLifeExpectancy sc.customLifeExpectancy) cy).1.find?
            fun r => decide (r.totalBalance < 0)).map (fun r => r.age) := rfl
  constructor
  · rw [show (scenarioOutcome (mutateParams p)
        (jsLastBalance (calculateCompoundInterest p [] 85 cy).1) cy sc).scenario = sc from rfl]
    rw [hbk, hres, List.find?_isSome]
    simp only [decide_eq_true_eq]
  · rw [show (scenarioOutcome (mutateParams p)
        (jsLastBalance (calculateCompoundInterest p [] 85 cy).1) cy sc).scenario = sc from rfl]
    intro i r hget hneg hfirst
    rw [hba, hres]
    rw [find?_some_of_first _ _ i r hget (by simp [hneg])
      fun j rj hj hg => by simpa using hfirst j rj hj hg]
    rfl

/-- C4 witness: for the 99-year-old's unemployment scenario (catalog
position 0) the projected sequence is empty (life expectancy 85 < current
age), so no record has negative balance and the bankrupt flag is off. -/
theorem stress_bankrupt_iff_witness :
    (scenarioOutcome (mutateParams paramsElder)
        (jsLastBalance (calculateCompoundInterest paramsElder [] 85 2026).1) 2026
        ((stressScenarios paramsElder).getD 0 ⟨"", "", "", [], none, none⟩)).isBankrupt
      = false := by
  have hget : (stressScenarios paramsElder).get? 0
      = some ((stressScenarios paramsElder).getD 0 ⟨"", "", "", [], none, none⟩) := rfl
  have hmem : scenarioOutcome (mutateParams paramsElder)
      (jsLastBalance (calculateCompoundInterest paramsElder [] 85 2026).1) 2026
      ((stressScenarios paramsElder).getD 0 ⟨"", "", "", [], none, none⟩)
      ∈ (runStressTests paramsElder 2026).1 := by
    rw [runStressTests_eq]
    exact List.mem_map_of_mem _ (List.get?_mem hget)
  have h := (stress_bankrupt_iff paramsElder 2026 _ hmem).1
  have hempty : (calculateCompoundInterest paramsElder
      ((scenarioOutcome (mutateParams paramsElder)
        (jsLastBalance (calculateCompoundInterest paramsElder [] 85 2026).1) 2026
        ((stressScenarios paramsElder).getD 0 ⟨"", "", "", [], none, none⟩)).scenario.events)
      (jsLifeExpectancy ((scenarioOutcome (mutateParams paramsElder)
        (jsLastBalance (calculateCompoundInterest paramsElder [] 85 2026).1) 2026
        ((stressScenarios paramsElder).getD 0 ⟨"", "", "", [], none, none⟩)).scenario.customLifeExpectancy))
      2026).1 = [] := by
    norm_num [calculateCompoundInterest, simRun, mkCtx, stressScenarios, scenarioOutcome,
      jsLifeExpectancy, paramsElder]
  cases hb : (scenarioOutcome (mutateParams paramsElder)
      (jsLastBalance (calculateCompoundInterest paramsElder [] 85 2026).1) 2026
      ((stressScenarios paramsElder).getD 0 ⟨"", "", "", [], none, none⟩)).isBankrupt
  · rfl
  · obtain ⟨r, hr, _⟩ := h.mp hb
    rw [hempty] at hr
    exact absurd hr (List.not_mem_nil r)

/-- C6 (confirmed): the engines are deterministic and idempotent across the
caller-visible mutation: re-aggregating the written-back holdings returns
the same statistics and the same holdings; a second projection call on the
parameter object mutated by a first call returns the identical
(post-rounding) YearlyResult sequence; a second stress-test run on the
mutated object returns the identical outcomes; the gap analyzer is a pure
function of its inputs. -/
theorem engines_deterministic_idempotent (A : List Asset) (p : CalculationParams)
    (ev : List LifecycleEvent) (life cy : ℤ) (s1 s2 : PortfolioStats) (y : ℤ) :
    (calculatePortfolioStats ((calculatePortfolioStats A).2)
        = ((calculatePortfolioStats A).1, (calculatePortfolioStats A).2))
    ∧ ((calculateCompoundInterest (calculateCompoundInterest p ev life cy).2 ev life cy).1
        = (calculateCompoundInterest p ev life cy).1)
    ∧ ((runStressTests (runStressTests p cy).2 cy).1 = (runStressTests p cy).1)
    ∧ (calculateGapAnalysis s1 s2 y = calculateGapAnalysis s1 s2 y) := by
  refine ⟨stats_idem A, ?_, ?_, rfl⟩
  · rw [calcCI_snd]
    exact calcCI_fst_mutate p ev life cy
  · have hsnd : (runStressTests p cy).2 = mutateParams p := by rw [runStressTests_eq]
    rw [hsnd, runStressTests_eq, runStressTests_eq]
    dsimp only
    rw [mutate_idem, calcCI_fst_mutate]
    rfl

/-- C10 (confirmed): each call to the Projection Simulator, Monte Carlo
Engine or Stress Test Runner leaves the caller's parameter object equal to
the aggregator's write-back of its assets: when the total value is positive
each asset's allocation becomes its rounded percentage share, each asset is
otherwise unchanged field-for-field, the list keeps its length, and every
non-asset field of the parameter object (and the mortgage sub-object) is
unchanged. -/
theorem params_mutation_frame (p : CalculationParams) (ev : List LifecycleEvent)
    (life cy : ℤ) (sims : ℕ) (randn : ℕ → ℚ) :
    (0 < totalHKD p.assets → ∀ (i : ℕ) (ri rj : Asset),
        (mutateParams p).assets.get? i = some ri → p.assets.get? i = some rj →
        ri.allocation = round1 (assetHKD rj / totalHKD p.assets * 100))
    ∧ (∀ (i : ℕ) (ri rj : Asset),
        (mutateParams p).assets.get? i = some ri → p.assets.get? i = some rj →
        ri = { rj with allocation := ri.allocation })
    ∧ (mutateParams p).assets.length = p.assets.length
    ∧ (calculateCompoundInterest p ev life cy).2 = mutateParams p
    ∧ (runMonteCarloSimulation p sims randn cy).2 = mutateParams p
    ∧ (runStressTests p cy).2 = mutateParams p
    ∧ (mutateParams p).assets = (calculatePortfolioStats p.assets).2
    ∧ (mutateParams p).currentAge = p.currentAge
    ∧ (mutateParams p).retirementAge = p.retirementAge
    ∧ (mutateParams p).monthlyIncome = p.monthlyIncome
    ∧ (mutateParams p).targetMonthlyIncome = p.targetMonthlyIncome
    ∧ (mutateParams p).targetAnnualYield = p.targetAnnualYield
    ∧ (mutateParams p).initialPrincipal = p.initialPrincipal
    ∧ (mutateParams p).monthlyContribution = p.monthlyContribution
    ∧ (mutateParams p).annualExtraContribution = p.annualExtraContribution
    ∧ (mutateParams p).inflationRate = p.inflationRate
    ∧ (mutateParams p).mortgage = p.mortgage
    ∧ (mutateParams p).useManualReturn = p.useManualReturn
    ∧ (mutateParams p).manualReturnRate = p.manualReturnRate
    ∧ (mutateParams p).manualDividendYield = p.manualDividendYield
    ∧ (mutateParams p).simulatedAssets = p.simulatedAssets
    ∧ (mutateParams p).lastPortfolioUpdate = p.lastPortfolioUpdate := by
  refine ⟨?_, ?_, ?_, rfl, rfl, ?_, rfl, rfl, rfl, rfl, rfl, rfl, rfl, rfl, rfl, rfl,
    rfl, rfl, rfl, rfl, rfl, rfl⟩
  · intro hpos i ri rj hri hrj
    have h : ¬ totalHKD p.assets = 0 := ne_of_gt hpos
    rw [show (mutateParams p).assets = (calculatePortfolioStats p.assets).2 from rfl,
      stats_snd_pos _ h] at hri
    unfold setAllocList at hri
    rw [List.get?_map, hrj] at hri
    simp only [Option.map_some', Option.some_inj] at hri
    rw [← hri]
  · intro i ri rj hri hrj
    by_cases h : totalHKD p.assets = 0
    · rw [show (mutateParams p).assets = (calculatePortfolioStats p.assets).2 from rfl,
        stats_snd_zero _ h, hrj, Option.some_inj] at hri
      subst hri
      rfl
    · rw [show (mutateParams p).assets = (calculatePortfolioStats p.assets).2 from rfl,
        stats_snd_pos _ h] at hri
      unfold setAllocList at hri
      rw [List.get?_map, hrj] at hri
      simp only [Option.map_some', Option.some_inj] at hri
      rw [← hri]
  · show (calculatePortfolioStats p.assets).2.length = p.assets.length
    by_cases h : totalHKD p.assets = 0
    · rw [stats_snd_zero _ h]
    · rw [stats_snd_pos _ h]
      unfold setAllocList
      rw [List.length_map]
  · rw [runStressTests_eq]

/-- C10 witness: for the single 6-HKD holding (stale allocation 7), a
Projection Simulator call rewrites the allocation to its rounded percentage
share, 100. -/
theorem params_mutation_frame_witness :
    0 < totalHKD paramsAlloc.assets
    ∧ (((calculateCompoundInterest paramsAlloc [] 101 2026).2).assets.getD 0 assetUnit).allocation
        = round1 (assetHKD (paramsAlloc.assets.getD 0 assetUnit) / totalHKD paramsAlloc.assets * 100) := by
  have hpos : 0 < totalHKD paramsAlloc.assets := by
    norm_num [totalHKD, assetHKD, convertToHKD, EXCHANGE_RATES, paramsAlloc, assetUnit, paramsElder]
  refine ⟨hpos, ?_⟩
  have hri : ((calculateCompoundInterest paramsAlloc [] 101 2026).2).assets.get? 0
      = some (((calculateCompoundInterest paramsAlloc [] 101 2026).2).assets.getD 0 assetUnit) := by
    norm_num [calculateCompoundInterest, mutateParams, calculatePortfolioStats, totalHKD,
      assetHKD, convertToHKD, EXCHANGE_RATES, setAllocList, paramsAlloc, assetUnit, paramsElder,
      round1, jsRoundQ, jsRound]
  have hrj : paramsAlloc.assets.get? 0 = some (paramsAlloc.assets.getD 0 assetUnit) := rfl
  exact (params_mutation_frame paramsAlloc [] 101 2026 0 fun _ => 0).1 hpos 0 _ _ hri hrj
